import Mathlib

/-!
Shallow embedding of `src/src/Planners/src/UnicycleTrajectoryPlanner.cpp`
(BipedalLocomotion::Planners::UnicycleTrajectoryPlanner).

Modelling conventions:
* C++ `double` values are modelled as `ℚ` in the state-machine model (every
  arithmetic step the planner itself performs on them is rational once the
  inputs are), and as `ℝ` in the LIPM-matrix model where `sqrt` appears.
* `std::chrono::nanoseconds` durations are modelled as rational seconds; the
  source converts them with `count() * 1e-9` at every use site.
* The external collaborators (UnicycleGenerator / UnicyclePlanner /
  DCMTrajectoryGenerator, iDynTree::KinDynComputations) are out of scope per
  the spec; each call into them is modelled by an environment record carrying
  the collaborator's reply (success flags and the data the planner pulls).
* Logging calls are non-functional (spec section 9) and are not modelled.
-/

namespace UnicyclePlanner

abbrev Vec2 := ℚ × ℚ
abbrev Vec3 := ℚ × ℚ × ℚ
abbrev Vec4 := ℚ × ℚ × ℚ × ℚ

/-- `Impl::FSM` (lines 33–38 of the source). -/
inductive FSM where
  | NotInitialized
  | Initialized
  | Running
deriving DecidableEq

/-- One footstep: planar position, heading angle, impact time
(iDynTree `Step`, pulled from the generator footprints). -/
structure Step where
  positionX : ℚ
  positionY : ℚ
  angle : ℚ
  impactTime : ℚ
deriving DecidableEq

/-- `UnicycleTrajectoryPlannerOutput::contactStatus` fields filled at lines 596–599. -/
structure ContactStatus where
  leftFootInContact : List Bool
  rightFootInContact : List Bool
  usedLeftAsFixed : List Bool
deriving DecidableEq

/-- Footstep lists filled at lines 602–603. -/
structure Steps where
  leftSteps : List Step
  rightSteps : List Step
deriving DecidableEq

/-- DCM trajectory samples filled at lines 619–620. -/
structure DCMTrajectory where
  position : List Vec2
  velocity : List Vec2
deriving DecidableEq

/-- CoM trajectory samples filled at lines 633–679 (planar part from the LIPM
integration loop, z component stacked in from the height generator). -/
structure CoMTrajectory where
  position : List Vec3
  velocity : List Vec3
  acceleration : List Vec3
deriving DecidableEq

/-- `UnicycleTrajectoryPlannerOutput` (the published snapshot). Merge points
are kept as the sample indices the generator reports (their values are not
touched by the planner). -/
structure PlannerOutput where
  contactStatus : ContactStatus
  steps : Steps
  dcmTrajectory : DCMTrajectory
  comTrajectory : CoMTrajectory
  mergePoints : List ℕ
deriving DecidableEq

/-- `DCMInitialState` as carried inside the input (lines 97–101). -/
structure DCMInitialState where
  initialPosition : Vec2
  initialVelocity : Vec2
deriving DecidableEq

/-- CoM initial planar state used at lines 625–626. -/
structure CoMInitialState where
  initialPlanarPosition : Vec2
  initialPlanarVelocity : Vec2
deriving DecidableEq

/-- `UnicycleTrajectoryPlannerInput`.  The measured SE3 transform enters the
planner only through its planar projection (x, y, yaw extracted at
lines 498–511), so it is carried in that form. -/
structure PlannerInput where
  plannerInput : Vec3
  dcmInitialState : DCMInitialState
  comInitialState : CoMInitialState
  isLeftLastSwinging : Bool
  initTime : ℚ
  measuredTransformX : ℚ
  measuredTransformY : ℚ
  measuredTransformYaw : ℚ
deriving DecidableEq

/-- `UnicycleTrajectoryPlannerParameters` (the fields the source reads back
after `initialize`).  The yaw offsets are stored by the source in radians
(`iDynTree::deg2rad` at lines 298–301); the factor pi/180 is irrational and no
claim depends on it, so the field carries the configured value with the
conversion left symbolic. -/
structure Parameters where
  dt : ℚ
  plannerHorizon : ℚ
  referencePointDistance : Vec2
  nominalWidth : ℚ
  leftYawDeltaInRad : ℚ
  rightYawDeltaInRad : ℚ
  leftContactFrameName : String
  rightContactFrameName : String
  leftContactFrameIndex : Int
  rightContactFrameIndex : Int
deriving DecidableEq

/-- `UnicycleTrajectoryPlanner::Impl` (lines 29–88): FSM state, published
output, stored input, parameters, the CoM LTI system matrices (diagonal, so
represented by their scalar coefficients, see lines 376–377), and the stored
trajectory init time (line 79). -/
structure PlannerState where
  state : FSM
  output : PlannerOutput
  input : PlannerInput
  parameters : Parameters
  comA : ℚ
  comB : ℚ
  initTime : ℚ
deriving DecidableEq

/-- `isOutputValid` (lines 444–447): true iff the FSM state is `Running`. -/
def isOutputValid (s : PlannerState) : Bool :=
  decide (s.state = FSM.Running)

/-- `setInput` (lines 449–462): fails when never initialized, otherwise
stores the input verbatim. -/
def setInput (i : PlannerInput) (s : PlannerState) : Bool × PlannerState :=
  if s.state = FSM.NotInitialized then (false, s)
  else (true, { s with input := i })

/-- `iDynTree::FRAME_INVALID_INDEX`. -/
def frameInvalidIndex : Int := -1

/-- Reply of the kinematic-model collaborator (`iDynTree::KinDynComputations`,
external per spec section 1): whether `loadRobotModel` succeeds and the
frame-name to frame-index resolution (`getFrameIndex`). -/
structure ModelEnv where
  loadOk : Bool
  frameIndex : String → Int

/-- `setRobotContactFrames` (lines 139–183).  Note that the source assigns
each frame index into the parameters before checking it for validity. -/
def setRobotContactFrames (env : ModelEnv) (s : PlannerState) : Bool × PlannerState :=
  if s.state = FSM.NotInitialized then (false, s)
  else if !env.loadOk then (false, { s with state := FSM.NotInitialized })
  else
    let sL : PlannerState :=
      { s with parameters :=
        { s.parameters with
          leftContactFrameIndex := env.frameIndex s.parameters.leftContactFrameName } }
    if sL.parameters.leftContactFrameIndex = frameInvalidIndex then
      (false, { sL with state := FSM.NotInitialized })
    else
      let sR : PlannerState :=
        { sL with parameters :=
          { sL.parameters with
            rightContactFrameIndex := env.frameIndex sL.parameters.rightContactFrameName } }
      if sR.parameters.rightContactFrameIndex = frameInvalidIndex then
        (false, { sR with state := FSM.NotInitialized })
      else (true, sR)

/-- Reply of the footstep/DCM generator collaborator during one `advance`
call: the success of `addPersonFollowingDesiredTrajectoryPoint` (line 557),
`setDCMInitialState` (line 573) and `reGenerate` (line 580), and the data the
planner pulls afterwards (lines 596–682). -/
structure GenEnv where
  addPointOk : Bool
  setDCMInitialStateOk : Bool
  reGenerateOk : Bool
  leftFootInContact : List Bool
  rightFootInContact : List Bool
  usedLeftAsFixed : List Bool
  leftSteps : List Step
  rightSteps : List Step
  dcmPosition : List Vec2
  dcmVelocity : List Vec2
  comHeightPosition : List ℚ
  comHeightVelocity : List ℚ
  comHeightAcceleration : List ℚ
  mergePoints : List ℕ
deriving DecidableEq

/-- The LIPM dynamics `xdot = A x + B u` with `A = a I₄`, `B = b I₄`
(comment block at lines 52–67, evaluated at line 649). -/
def comDynamics (a b : ℚ) (x u : Vec4) : Vec4 :=
  (a * x.1 + b * u.1,
   a * x.2.1 + b * u.2.1,
   a * x.2.2.1 + b * u.2.2.1,
   a * x.2.2.2 + b * u.2.2.2)

def v4add (p q : Vec4) : Vec4 :=
  (p.1 + q.1, p.2.1 + q.2.1, p.2.2.1 + q.2.2.1, p.2.2.2 + q.2.2.2)

def v4smul (c : ℚ) (p : Vec4) : Vec4 :=
  (c * p.1, c * p.2.1, c * p.2.2.1, c * p.2.2.2)

/-- Modelled from the spec: `ContinuousDynamicalSystem::RK4` (header-only
repository code not under `src/`); spec section 4.2 specifies one fixed-step
explicit 4-stage Runge-Kutta update per call, with the control input held by
the dynamical system across the step. -/
def rk4Step (a b dt : ℚ) (u x : Vec4) : Vec4 :=
  let k1 := comDynamics a b x u
  let k2 := comDynamics a b (v4add x (v4smul (dt / 2) k1)) u
  let k3 := comDynamics a b (v4add x (v4smul (dt / 2) k2)) u
  let k4 := comDynamics a b (v4add x (v4smul dt k3)) u
  v4add x (v4smul (dt / 6) (v4add k1 (v4add (v4smul 2 k2) (v4add (v4smul 2 k3) k4))))

/-- The CoM integration loop (lines 638–664): one iteration per DCM position
sample; each records the current planar position, the planar velocity and
acceleration from the state derivative, then advances the integrator.
`dcmVelocity.at(i)` is bounds-checked in the source; the in-bounds case is
the modelled one (a missing sample defaults to zero here). -/
def comLoop (a b dt : ℚ) : Vec4 → List Vec2 → List Vec2 → List Vec2 × List Vec2 × List Vec2
  | _, [], _ => ([], [], [])
  | x, p :: ps, vs =>
    let v := vs.headD (0, 0)
    let u : Vec4 := (p.1, p.2, v.1, v.2)
    let deriv := comDynamics a b x u
    let xNext := rk4Step a b dt u x
    let rest := comLoop a b dt xNext ps vs.tail
    ((x.1, x.2.1) :: rest.1,
     (deriv.1, deriv.2.1) :: rest.2.1,
     (deriv.2.2.1, deriv.2.2.2) :: rest.2.2)

/-- The z-stacking loop (lines 673–679): overwrite the z component of each
CoM sample with the height-generator sample of the same index. -/
def stackHeight : List Vec2 → List ℚ → List Vec3
  | [], _ => []
  | p :: ps, hs => (p.1, p.2, hs.headD 0) :: stackHeight ps hs.tail

/-- The CoM integration initial state (lines 624–626): planar position and
velocity taken from the input's CoM initial state. -/
def comX0 (i : PlannerInput) : Vec4 :=
  (i.comInitialState.initialPlanarPosition.1,
   i.comInitialState.initialPlanarPosition.2,
   i.comInitialState.initialPlanarVelocity.1,
   i.comInitialState.initialPlanarVelocity.2)

/-- The output-publication section of `advance` (lines 592–686): under the
output lock, pull contact status, footsteps, DCM samples and merge points
from the generator, run the CoM integration loop over the DCM samples, stack
the CoM height trajectory in, and commit the state to `Running`. -/
def publishOutput (env : GenEnv) (s : PlannerState) : PlannerState :=
  let r := comLoop s.comA s.comB s.parameters.dt (comX0 s.input) env.dcmPosition env.dcmVelocity
  { s with
    state := FSM.Running
    output :=
      { contactStatus :=
          { leftFootInContact := env.leftFootInContact
            rightFootInContact := env.rightFootInContact
            usedLeftAsFixed := env.usedLeftAsFixed }
        steps := { leftSteps := env.leftSteps, rightSteps := env.rightSteps }
        dcmTrajectory := { position := env.dcmPosition, velocity := env.dcmVelocity }
        comTrajectory :=
          { position := stackHeight r.1 env.comHeightPosition
            velocity := stackHeight r.2.1 env.comHeightVelocity
            acceleration := stackHeight r.2.2 env.comHeightAcceleration }
        mergePoints := env.mergePoints } }

/-- The `Running`-state re-planning branch of `advance` (lines 482–590).
Locals computed at lines 484–551 (unicycle pose, desired point) are arguments
to the external generator whose acceptance the environment flags abstract;
the desired-point assignments themselves are embedded separately in
`desiredPointInRelativeFrame`.  Failure at the waypoint push, the DCM initial
state, or the re-generation returns false before the publication section. -/
def replanBranch (env : GenEnv) (s : PlannerState) : Bool × PlannerState :=
  if !env.addPointOk then (false, s)
  else if !env.setDCMInitialStateOk then (false, s)
  else if !env.reGenerateOk then (false, s)
  else (true, publishOutput env s)

/-- `advance` (lines 464–687).  After the not-initialized guard the source
unconditionally overwrites the stored trajectory init time with the input's
init time (line 478), before the `Running`-state branch can fail. -/
def advance (env : GenEnv) (s : PlannerState) : Bool × PlannerState :=
  if s.state = FSM.NotInitialized then (false, s)
  else
    let s1 : PlannerState := { s with initTime := s.input.initTime }
    if s1.state = FSM.Running then replanBranch env s1
    else (true, publishOutput env s1)

/-- The configuration handler contents: one optional entry per parameter name
read at lines 267–315 (`none` models a key absent from the handler). -/
structure Config where
  referencePosition : Option Vec2
  controlType : Option String
  unicycleGain : Option ℚ
  slowWhenTurningGain : Option ℚ
  slowWhenBackwardFactor : Option ℚ
  slowWhenSidewaysFactor : Option ℚ
  dt : Option ℚ
  plannerHorizon : Option ℚ
  positionWeight : Option ℚ
  timeWeight : Option ℚ
  maxStepLength : Option ℚ
  minStepLength : Option ℚ
  maxLengthBackwardFactor : Option ℚ
  nominalWidth : Option ℚ
  minWidth : Option ℚ
  minStepDuration : Option ℚ
  maxStepDuration : Option ℚ
  nominalDuration : Option ℚ
  maxAngleVariation : Option ℚ
  minAngleVariation : Option ℚ
  saturationFactors : Option Vec2
  leftYawDeltaInDeg : Option ℚ
  rightYawDeltaInDeg : Option ℚ
  swingLeft : Option Bool
  startAlwaysSameFoot : Option Bool
  terminalStep : Option Bool
  mergePointRatios : Option Vec2
  switchOverSwingRatio : Option ℚ
  lastStepSwitchTime : Option ℚ
  isPauseActive : Option Bool
  comHeight : Option ℚ
  comHeightDelta : Option ℚ
  leftZMPDelta : Option Vec2
  rightZMPDelta : Option Vec2
  lastStepDCMOffset : Option ℚ
  leftContactFrameName : Option String
  rightContactFrameName : Option String

/-- The parameter values after the parsing block (lines 265–315): required
entries present, defaulted entries filled with their fallbacks. -/
structure ParsedConfig where
  referencePosition : Vec2
  controlTypeStr : String
  unicycleGain : ℚ
  slowWhenTurningGain : ℚ
  slowWhenBackwardFactor : ℚ
  slowWhenSidewaysFactor : ℚ
  dt : ℚ
  plannerHorizon : ℚ
  positionWeight : ℚ
  timeWeight : ℚ
  maxStepLength : ℚ
  minStepLength : ℚ
  maxLengthBackwardFactor : ℚ
  nominalWidth : ℚ
  minWidth : ℚ
  minStepDuration : ℚ
  maxStepDuration : ℚ
  nominalDuration : ℚ
  maxAngleVariation : ℚ
  minAngleVariation : ℚ
  saturationFactors : Vec2
  leftYawDeltaInDeg : ℚ
  rightYawDeltaInDeg : ℚ
  swingLeft : Bool
  startAlwaysSameFoot : Bool
  terminalStep : Bool
  mergePointRatios : Vec2
  switchOverSwingRatio : ℚ
  lastStepSwitchTime : ℚ
  isPauseActive : Bool
  comHeight : ℚ
  comHeightDelta : ℚ
  leftZMPDelta : Vec2
  rightZMPDelta : Vec2
  lastStepDCMOffset : ℚ
  leftContactFrameName : String
  rightContactFrameName : String
deriving DecidableEq

/-- `loadParamWithFallback` (lines 209–221 of the source): take the
configured value when the key is present, the stated fallback otherwise.
Kept as a named function exactly like the source's lambda. -/
@[noinline] def loadParamWithFallback {α : Type} (o : Option α) (fallback : α) : α :=
  o.getD fallback

/-- The parsing block of `initialize` (lines 265–315): `loadParam` (no
fallback, required) fails when the key is absent; `loadParamWithFallback`
substitutes the stated default.  The whole block succeeds iff every required
key is present.  Fallback values follow lines 268–313 (`0.4 = 2/5`,
`0.2 = 1/5`, `dt` default `0.002 s = 1/500`, and so on). -/
def parsedOfRequired (c : Config) (refPos satF mpr lz rz : Vec2)
    (lname rname : String) : ParsedConfig :=
      { referencePosition := refPos
        controlTypeStr := loadParamWithFallback c.controlType "direct"
        unicycleGain := loadParamWithFallback c.unicycleGain 10
        slowWhenTurningGain := loadParamWithFallback c.slowWhenTurningGain 2
        slowWhenBackwardFactor := loadParamWithFallback c.slowWhenBackwardFactor (2 / 5)
        slowWhenSidewaysFactor := loadParamWithFallback c.slowWhenSidewaysFactor (1 / 5)
        dt := loadParamWithFallback c.dt (1 / 500)
        plannerHorizon := loadParamWithFallback c.plannerHorizon 20
        positionWeight := loadParamWithFallback c.positionWeight 1
        timeWeight := loadParamWithFallback c.timeWeight (5 / 2)
        maxStepLength := loadParamWithFallback c.maxStepLength (8 / 25)
        minStepLength := loadParamWithFallback c.minStepLength (1 / 100)
        maxLengthBackwardFactor := loadParamWithFallback c.maxLengthBackwardFactor (4 / 5)
        nominalWidth := loadParamWithFallback c.nominalWidth (1 / 5)
        minWidth := loadParamWithFallback c.minWidth (7 / 50)
        minStepDuration := loadParamWithFallback c.minStepDuration (13 / 20)
        maxStepDuration := loadParamWithFallback c.maxStepDuration (3 / 2)
        nominalDuration := loadParamWithFallback c.nominalDuration (4 / 5)
        maxAngleVariation := loadParamWithFallback c.maxAngleVariation 18
        minAngleVariation := loadParamWithFallback c.minAngleVariation 5
        saturationFactors := satF
        leftYawDeltaInDeg := loadParamWithFallback c.leftYawDeltaInDeg 0
        rightYawDeltaInDeg := loadParamWithFallback c.rightYawDeltaInDeg 0
        swingLeft := loadParamWithFallback c.swingLeft false
        startAlwaysSameFoot := loadParamWithFallback c.startAlwaysSameFoot true
        terminalStep := loadParamWithFallback c.terminalStep true
        mergePointRatios := mpr
        switchOverSwingRatio := loadParamWithFallback c.switchOverSwingRatio (1 / 5)
        lastStepSwitchTime := loadParamWithFallback c.lastStepSwitchTime (3 / 10)
        isPauseActive := loadParamWithFallback c.isPauseActive true
        comHeight := loadParamWithFallback c.comHeight (7 / 10)
        comHeightDelta := loadParamWithFallback c.comHeightDelta (1 / 100)
        leftZMPDelta := lz
        rightZMPDelta := rz
        lastStepDCMOffset := loadParamWithFallback c.lastStepDCMOffset (1 / 2)
        leftContactFrameName := lname
        rightContactFrameName := rname }

def parseParameters (c : Config) : Option ParsedConfig :=
  c.referencePosition.bind fun refPos =>
  c.saturationFactors.bind fun satF =>
  c.mergePointRatios.bind fun mpr =>
  c.leftZMPDelta.bind fun lz =>
  c.rightZMPDelta.bind fun rz =>
  c.leftContactFrameName.bind fun lname =>
  c.rightContactFrameName.bind fun rname =>
    some (parsedOfRequired c refPos satF mpr lz rz lname rname)

/-- `UnicycleController` (controller mode). -/
inductive UnicycleController where
  | PERSON_FOLLOWING
  | DIRECT
deriving DecidableEq

/-- `setUnicycleControllerFromString` (lines 113–130). -/
def setUnicycleControllerFromString (str : String) : Option UnicycleController :=
  if str = "personFollowing" then some UnicycleController.PERSON_FOLLOWING
  else if str = "direct" then some UnicycleController.DIRECT
  else none

/-- The values forwarded to the external unicycle planner by the
configuration calls at lines 320–326. -/
structure ForwardedUnicycleSettings where
  personDistance : Vec2
  personFollowingControllerGain : ℚ
  slowWhenTurnGain : ℚ
  slowWhenBackwardFactor : ℚ
  slowWhenSidewaysFactor : ℚ
deriving DecidableEq

/-- Mirrors the forwarding calls of `initialize`:
line 323 `setPersonFollowingControllerGain(unicycleGain)`,
line 324 `setSlowWhenTurnGain(slowWhenTurningGain)`,
line 325 `setSlowWhenBackwardFactor(slowWhenBackwardFactor)`,
line 326 `setSlowWhenSidewaysFactor(slowWhenBackwardFactor)` — the source
passes `slowWhenBackwardFactor` to the sideways setter; the parsed
`slowWhenSidewaysFactor` is never used. -/
def forwardedUnicycleSettings (p : ParsedConfig) : ForwardedUnicycleSettings :=
  { personDistance := p.referencePosition
    personFollowingControllerGain := p.unicycleGain
    slowWhenTurnGain := p.slowWhenTurningGain
    slowWhenBackwardFactor := p.slowWhenBackwardFactor
    slowWhenSidewaysFactor := p.slowWhenBackwardFactor }

/-- Replies of the external collaborators during `initialize`:
`externalConfigOk` collects the generator / unicycle-planner / DCM-generator
configuration calls (lines 318–366), `comSystemOk` the CoM system and
integrator setup (lines 378–383), `firstTrajectoryOk` the cold-start
`generateFirstTrajectory` (line 386).  `omega` is the scalar
`sqrt(g / comHeight)` of line 363; its exact real value is modelled by
`omegaLIPM` below, and no claim settled on the rational state-machine model
depends on the field's value. -/
structure InitEnv where
  externalConfigOk : Bool
  comSystemOk : Bool
  firstTrajectoryOk : Bool
  omega : ℚ

/-- `initialize` (lines 185–432): parse the configuration, parse the
controller type (lines 345–346), run the collaborator configuration, set the
CoM system matrices `A = -omega I`, `B = -A` (lines 376–377), generate the
cold-start trajectory, and only on overall success commit the parameters and
transition to `Initialized` (lines 426–429).  On failure the FSM state is
left as it was (the source only assigns `Initialized` when `ok` holds). -/
def initPlanner (env : InitEnv) (c : Config) (s : PlannerState) : Bool × PlannerState :=
  match parseParameters c with
  | none => (false, s)
  | some p =>
    match setUnicycleControllerFromString p.controlTypeStr with
    | none => (false, s)
    | some _ =>
      if env.externalConfigOk && env.comSystemOk && env.firstTrajectoryOk then
        let matA := -env.omega
        let matB := -matA
        (true,
          { s with
            state := FSM.Initialized
            parameters :=
              { dt := p.dt
                plannerHorizon := p.plannerHorizon
                referencePointDistance := p.referencePosition
                nominalWidth := p.nominalWidth
                leftYawDeltaInRad := p.leftYawDeltaInDeg
                rightYawDeltaInRad := p.rightYawDeltaInDeg
                leftContactFrameName := p.leftContactFrameName
                rightContactFrameName := p.rightContactFrameName
                leftContactFrameIndex := s.parameters.leftContactFrameIndex
                rightContactFrameIndex := s.parameters.rightContactFrameIndex }
            comA := matA
            comB := matB })
      else (false, s)

/-- The desired-point assignments of the `Running` branch of `advance`,
lines 490–492 of the source, verbatim:

    Eigen::Vector2d desiredPointInRelativeFrame, ...;
    desiredPointInRelativeFrame(0) = m_pImpl->input.plannerInput(0);
    desiredPointInRelativeFrame(0) = m_pImpl->input.plannerInput(1);

Both statements assign component 0; component 1 is never written and keeps
the uninitialized contents of the stack vector, passed in here as `uninit`. -/
def desiredPointInRelativeFrame (uninit : Vec2) (pin : Vec3) : Vec2 :=
  let d0 := uninit
  let d1 : Vec2 := (pin.1, d0.2)
  let d2 : Vec2 := (pin.2.1, d1.2)
  d2

/-- Contents of one foot's contact list.  The list is produced by
`UnicycleUtilities::getContactList` (repository code not under `src/`); its
entries are opaque to every claim and are carried as activation/deactivation
instants. -/
structure ContactList where
  entries : List (ℚ × ℚ)
deriving DecidableEq

/-- The arguments `getContactPhaseList` passes to
`UnicycleUtilities::getContactList` for one foot (lines 766–772 and 780–787). -/
structure ContactListQuery where
  initTime : ℚ
  dt : ℚ
  footInContact : List Bool
  steps : List Step
  contactFrameIndex : Int
  contactName : String
deriving DecidableEq

/-- The left-foot contact-list call arguments (lines 766–772): the stored
`m_pImpl->initTime`, the sample period, the left contact timeline and
footsteps of the published output, the left frame index, and "left_foot". -/
def leftContactListQuery (s : PlannerState) : ContactListQuery :=
  { initTime := s.initTime
    dt := s.parameters.dt
    footInContact := s.output.contactStatus.leftFootInContact
    steps := s.output.steps.leftSteps
    contactFrameIndex := s.parameters.leftContactFrameIndex
    contactName := "left_foot" }

/-- The right-foot contact-list call arguments (lines 780–787). -/
def rightContactListQuery (s : PlannerState) : ContactListQuery :=
  { initTime := s.initTime
    dt := s.parameters.dt
    footInContact := s.output.contactStatus.rightFootInContact
    steps := s.output.steps.rightSteps
    contactFrameIndex := s.parameters.rightContactFrameIndex
    contactName := "right_foot" }

/-- The contact phase list: per-foot named contact lists
(`ContactListMap` plus `setLists`, lines 795–797). -/
structure ContactPhaseListModel where
  lists : List (String × ContactList)
deriving DecidableEq

/-- The default-constructed, empty `ContactPhaseList` of line 750. -/
def emptyContactPhaseList : ContactPhaseListModel := { lists := [] }

/-- `getContactPhaseList` (lines 745–800): returns the empty list when the
output is not valid (lines 752–757) or when building either foot's contact
list fails (lines 766–793); otherwise assembles the two lists.  The external
builder `UnicycleUtilities::getContactList` is modelled by the oracle `cEnv`
(`none` = the builder reported failure).  The planner state is returned
alongside to record that the call leaves it unchanged. -/
def getContactPhaseList (cEnv : ContactListQuery → Option ContactList)
    (s : PlannerState) : ContactPhaseListModel × PlannerState :=
  if isOutputValid s = false then (emptyContactPhaseList, s)
  else
    match cEnv (leftContactListQuery s) with
    | none => (emptyContactPhaseList, s)
    | some leftList =>
      match cEnv (rightContactListQuery s) with
      | none => (emptyContactPhaseList, s)
      | some rightList =>
        ({ lists := [("left_foot", leftList), ("right_foot", rightList)] }, s)

/-- Modelled from the spec:
`BipedalLocomotion::Math::StandardAccelerationOfGravitation` (a constants
header of this repository that is not under `src/`); the spec fixes
`g = 9.81 m/s^2`. -/
def standardGravity : ℝ := 9.81

/-- `omega = sqrt(g / comHeight)` (line 363), over the reals. -/
noncomputable def omegaLIPM (comHeight : ℝ) : ℝ :=
  Real.sqrt (standardGravity / comHeight)

/-- The LIPM system matrix `A = -omega * Identity` (line 376). -/
noncomputable def comSystemMatrixA (comHeight : ℝ) : Matrix (Fin 4) (Fin 4) ℝ :=
  (-(omegaLIPM comHeight)) • (1 : Matrix (Fin 4) (Fin 4) ℝ)

/-- The LIPM input matrix `B = -A` (line 377). -/
noncomputable def comSystemMatrixB (comHeight : ℝ) : Matrix (Fin 4) (Fin 4) ℝ :=
  -comSystemMatrixA comHeight

/-! Concrete fixtures used by the witness theorems. -/

def emptyOutput : PlannerOutput :=
  { contactStatus := { leftFootInContact := [], rightFootInContact := [], usedLeftAsFixed := [] }
    steps := { leftSteps := [], rightSteps := [] }
    dcmTrajectory := { position := [], velocity := [] }
    comTrajectory := { position := [], velocity := [], acceleration := [] }
    mergePoints := [] }

def sampleInput : PlannerInput :=
  { plannerInput := (0, 0, 0)
    dcmInitialState := { initialPosition := (0, 0), initialVelocity := (0, 0) }
    comInitialState := { initialPlanarPosition := (0, 0), initialPlanarVelocity := (0, 0) }
    isLeftLastSwinging := false
    initTime := 5
    measuredTransformX := 0
    measuredTransformY := 0
    measuredTransformYaw := 0 }

def sampleParams : Parameters :=
  { dt := 1 / 500
    plannerHorizon := 20
    referencePointDistance := (1, 0)
    nominalWidth := 1 / 5
    leftYawDeltaInRad := 0
    rightYawDeltaInRad := 0
    leftContactFrameName := "l_sole"
    rightContactFrameName := "r_sole"
    leftContactFrameIndex := 3
    rightContactFrameIndex := 4 }

def runningState : PlannerState :=
  { state := FSM.Running
    output := emptyOutput
    input := sampleInput
    parameters := sampleParams
    comA := -3
    comB := 3
    initTime := 0 }

def initializedState : PlannerState := { runningState with state := FSM.Initialized }

def notInitState : PlannerState := { runningState with state := FSM.NotInitialized }

def sampleGenEnv : GenEnv :=
  { addPointOk := true
    setDCMInitialStateOk := true
    reGenerateOk := true
    leftFootInContact := [true, true]
    rightFootInContact := [true, false]
    usedLeftAsFixed := [true, true]
    leftSteps := []
    rightSteps := []
    dcmPosition := [(1, 2), (3, 4)]
    dcmVelocity := [(0, 0), (1, 1)]
    comHeightPosition := [7 / 10, 7 / 10]
    comHeightVelocity := [0, 0]
    comHeightAcceleration := [0, 0]
    mergePoints := [0] }

def failAddEnv : GenEnv := { sampleGenEnv with addPointOk := false }

def sampleInitEnv : InitEnv :=
  { externalConfigOk := true, comSystemOk := true, firstTrajectoryOk := true, omega := 374 / 100 }

def defaultConfig : Config :=
  { referencePosition := some (1, 0)
    controlType := none
    unicycleGain := none
    slowWhenTurningGain := none
    slowWhenBackwardFactor := none
    slowWhenSidewaysFactor := none
    dt := none
    plannerHorizon := none
    positionWeight := none
    timeWeight := none
    maxStepLength := none
    minStepLength := none
    maxLengthBackwardFactor := none
    nominalWidth := none
    minWidth := none
    minStepDuration := none
    maxStepDuration := none
    nominalDuration := none
    maxAngleVariation := none
    minAngleVariation := none
    saturationFactors := some (7 / 10, 7 / 10)
    leftYawDeltaInDeg := none
    rightYawDeltaInDeg := none
    swingLeft := none
    startAlwaysSameFoot := none
    terminalStep := none
    mergePointRatios := some (2 / 5, 2 / 5)
    switchOverSwingRatio := none
    lastStepSwitchTime := none
    isPauseActive := none
    comHeight := none
    comHeightDelta := none
    leftZMPDelta := some (0, 0)
    rightZMPDelta := some (0, 0)
    lastStepDCMOffset := none
    leftContactFrameName := some "l_sole"
    rightContactFrameName := some "r_sole" }

def invalidFrameModelEnv : ModelEnv :=
  { loadOk := true, frameIndex := fun _ => -1 }

def noneContactEnv : ContactListQuery → Option ContactList := fun _ => none


/-! Helper lemmas. -/

/-- The CoM integration loop emits exactly one position, one velocity and one
acceleration sample per DCM position sample. -/
theorem comLoop_length (a b dt : ℚ) (x : Vec4) (ps vs : List Vec2) :
    (comLoop a b dt x ps vs).1.length = ps.length ∧
    (comLoop a b dt x ps vs).2.1.length = ps.length ∧
    (comLoop a b dt x ps vs).2.2.length = ps.length := by
  induction ps generalizing x vs with
  | nil => simp [comLoop]
  | cons p ps ih =>
    have h := ih (rk4Step a b dt (p.1, p.2, (vs.headD (0, 0)).1, (vs.headD (0, 0)).2) x) vs.tail
    simpa [comLoop] using h

/-- Stacking the height trajectory preserves the sample count. -/
theorem stackHeight_length (ps : List Vec2) (hs : List ℚ) :
    (stackHeight ps hs).length = ps.length := by
  induction ps generalizing hs with
  | nil => simp [stackHeight]
  | cons p ps ih => simp [stackHeight, ih]

/-- A successful `advance` always commits through the publication section,
with the stored init time already overwritten by the input's init time. -/
theorem advance_true_eq (env : GenEnv) (s : PlannerState)
    (h : (advance env s).1 = true) :
    (advance env s).2 = publishOutput env { s with initTime := s.input.initTime } := by
  cases hA : env.addPointOk <;> cases hD : env.setDCMInitialStateOk <;>
    cases hR : env.reGenerateOk <;> cases hs : s.state <;>
      simp_all [advance, replanBranch]

/-! Claim theorems. -/

/-- C1: the spec's intended behavior is that the relative desired point
carries the 2D planar command, component 0 = plannerInput(0) and
component 1 = plannerInput(1).  The source (lines 490–492) assigns
component 0 twice instead: at the failing input plannerInput = (1, 2, 0)
(with the uninitialized stack vector taken as (0, 0)) the code produces
(2, 0) instead of the claimed (1, 2), and in general component 0 receives
the y command plannerInput(1) while component 1 keeps the uninitialized
contents. -/
theorem C1_desired_point_eval :
    desiredPointInRelativeFrame (0, 0) (1, 2, 0) = (2, 0) ∧
    (∀ uninit : Vec2, ∀ pin : Vec3,
      (desiredPointInRelativeFrame uninit pin).1 = pin.2.1 ∧
      (desiredPointInRelativeFrame uninit pin).2 = uninit.2) :=
  ⟨by decide, fun _ _ => ⟨rfl, rfl⟩⟩

/-- C2: the claim says the slow-when-sideways setting receives the
configured slowWhenSidewaysFactor (default 0.2) and the slow-when-backward
setting the configured slowWhenBackwardFactor (default 0.4), two distinct
parameters.  Evaluating the forwarding of `initialize` (lines 318–326) on a
configuration that leaves both at their defaults: the value forwarded to the
sideways setter is 0.4 = 2/5 (the backward factor, see line 326), identical
to the backward forwarding, while the parsed sideways parameter is
0.2 = 1/5 and is never forwarded. -/
theorem C2_sideways_forwarding_eval :
    (parseParameters defaultConfig).map
      (fun p => (forwardedUnicycleSettings p).slowWhenSidewaysFactor) = some (2 / 5) ∧
    (parseParameters defaultConfig).map
      (fun p => (forwardedUnicycleSettings p).slowWhenBackwardFactor) = some (2 / 5) ∧
    (parseParameters defaultConfig).map
      (fun p => p.slowWhenSidewaysFactor) = some (1 / 5) := by
  refine ⟨?_, ?_, ?_⟩ <;>
    simp [parseParameters, defaultConfig, parsedOfRequired, forwardedUnicycleSettings,
      loadParamWithFallback]

/-- C3: when `advance` runs in the Running state and the external
collaborator rejects the new waypoint, the DCM initial state, or the
re-generation, `advance` returns false, the previously published output is
left unchanged, and the planner state remains Running. -/
theorem C3_replan_failure_preserves_output (s : PlannerState) (env : GenEnv)
    (hs : s.state = FSM.Running)
    (hfail : env.addPointOk = false ∨ env.setDCMInitialStateOk = false ∨
             env.reGenerateOk = false) :
    (advance env s).1 = false ∧
    (advance env s).2.output = s.output ∧
    (advance env s).2.state = FSM.Running := by
  rcases hfail with h | h | h <;>
    cases hA : env.addPointOk <;> cases hD : env.setDCMInitialStateOk <;>
      cases hR : env.reGenerateOk <;> simp_all [advance, replanBranch]

/-- C3 witness: a concrete Running-state planner together with an
environment whose waypoint push is rejected. -/
theorem C3_witness :
    (advance failAddEnv runningState).1 = false ∧
    (advance failAddEnv runningState).2.output = runningState.output ∧
    (advance failAddEnv runningState).2.state = FSM.Running :=
  C3_replan_failure_preserves_output runningState failAddEnv rfl (Or.inl rfl)

/-- C4: the LIPM matrices built at initialization are A = -omega I₄ and
B = +omega I₄ = -A with omega = sqrt(g / comHeight); at comHeight = 0.70
the matrix A is diagonal with every diagonal entry within 0.01 of -3.74. -/
theorem C4_lipm_matrices :
    (∀ h : ℝ, comSystemMatrixA h = (-(omegaLIPM h)) • (1 : Matrix (Fin 4) (Fin 4) ℝ) ∧
       comSystemMatrixB h = (omegaLIPM h) • (1 : Matrix (Fin 4) (Fin 4) ℝ) ∧
       omegaLIPM h = Real.sqrt (standardGravity / h)) ∧
    (∀ i j : Fin 4,
       comSystemMatrixA (7 / 10) i j = if i = j then -(omegaLIPM (7 / 10)) else 0) ∧
    (∀ i : Fin 4, |comSystemMatrixA (7 / 10) i i - (-(374 / 100))| < 1 / 100) := by
  refine ⟨fun h => ⟨rfl, ?_, rfl⟩, ?_, ?_⟩
  · simp [comSystemMatrixB, comSystemMatrixA, neg_smul]
  · intro i j
    by_cases hij : i = j <;>
      simp [comSystemMatrixA, Matrix.smul_apply, Matrix.one_apply, hij]
  · intro i
    have hentry : comSystemMatrixA (7 / 10) i i = -(omegaLIPM (7 / 10)) := by
      simp [comSystemMatrixA, Matrix.smul_apply, Matrix.one_apply]
    have hlow : (373 / 100 : ℝ) < omegaLIPM (7 / 10) := by
      rw [omegaLIPM, standardGravity, show (9.81 : ℝ) = 981 / 100 by norm_num]
      exact (Real.lt_sqrt (by norm_num)).mpr (by norm_num)
    have hhigh : omegaLIPM (7 / 10) < 375 / 100 := by
      rw [omegaLIPM, standardGravity, show (9.81 : ℝ) = 981 / 100 by norm_num]
      exact (Real.sqrt_lt' (by norm_num)).mpr (by norm_num)
    rw [hentry, abs_lt]
    constructor <;> linarith

/-- C5: after a successful initialization the planner is Initialized and its
output is not yet valid; the first `advance` in the Initialized state skips
the re-planning branch (it publishes what the generator already holds, the
cold-start trajectory, independently of the re-planning replies) and
transitions to Running, making the output valid; in the Running state
`advance` runs the re-planning branch; and the output is valid exactly in
the Running state. -/
theorem C5_fsm_advance :
    (∀ env c s, (initPlanner env c s).1 = true →
       (initPlanner env c s).2.state = FSM.Initialized ∧
       isOutputValid (initPlanner env c s).2 = false) ∧
    (∀ env s, s.state = FSM.Initialized →
       advance env s = (true, publishOutput env { s with initTime := s.input.initTime }) ∧
       (advance env s).2.state = FSM.Running ∧
       isOutputValid (advance env s).2 = true) ∧
    (∀ env s, s.state = FSM.Running →
       advance env s = replanBranch env { s with initTime := s.input.initTime }) ∧
    (∀ s, isOutputValid s = true ↔ s.state = FSM.Running) := by
  refine ⟨?_, ?_, ?_, ?_⟩
  · intro env c s h
    cases hp : parseParameters c with
    | none => simp [initPlanner, hp] at h
    | some p =>
      cases hc : setUnicycleControllerFromString p.controlTypeStr with
      | none => simp [initPlanner, hp, hc] at h
      | some ctrl =>
        by_cases hok : env.externalConfigOk && env.comSystemOk && env.firstTrajectoryOk
        · simp [initPlanner, hp, hc, hok, isOutputValid]
        · simp [initPlanner, hp, hc, hok] at h
  · intro env s h
    refine ⟨by simp [advance, h], ?_, ?_⟩ <;>
      simp [advance, h, publishOutput, isOutputValid]
  · intro env s h
    simp [advance, h]
  · intro s
    simp [isOutputValid]

/-- C5 witness: the concrete default configuration is accepted; the first
`advance` after it validates the output; a Running-state `advance` takes the
re-planning branch. -/
theorem C5_witness :
    (initPlanner sampleInitEnv defaultConfig notInitState).2.state = FSM.Initialized ∧
    isOutputValid (initPlanner sampleInitEnv defaultConfig notInitState).2 = false ∧
    isOutputValid (advance sampleGenEnv initializedState).2 = true ∧
    advance sampleGenEnv runningState
      = replanBranch sampleGenEnv { runningState with initTime := runningState.input.initTime } :=
  ⟨(C5_fsm_advance.1 sampleInitEnv defaultConfig notInitState (by decide)).1,
   (C5_fsm_advance.1 sampleInitEnv defaultConfig notInitState (by decide)).2,
   (C5_fsm_advance.2.1 sampleGenEnv initializedState rfl).2.2,
   C5_fsm_advance.2.2.1 sampleGenEnv runningState rfl⟩

/-- C6: in the NotInitialized state, `setInput`, `advance` and
`setRobotContactFrames` all fail and return the planner state unchanged. -/
theorem C6_not_initialized_noop (s : PlannerState) (hs : s.state = FSM.NotInitialized) :
    (∀ i, setInput i s = (false, s)) ∧
    (∀ env, advance env s = (false, s)) ∧
    (∀ menv, setRobotContactFrames menv s = (false, s)) := by
  refine ⟨fun i => ?_, fun env => ?_, fun menv => ?_⟩ <;>
    simp [setInput, advance, setRobotContactFrames, hs]

/-- C6 witness: the three calls on a concrete never-initialized planner. -/
theorem C6_witness :
    setInput sampleInput notInitState = (false, notInitState) ∧
    advance sampleGenEnv notInitState = (false, notInitState) ∧
    setRobotContactFrames invalidFrameModelEnv notInitState = (false, notInitState) :=
  ⟨(C6_not_initialized_noop notInitState rfl).1 sampleInput,
   (C6_not_initialized_noop notInitState rfl).2.1 sampleGenEnv,
   (C6_not_initialized_noop notInitState rfl).2.2 invalidFrameModelEnv⟩

/-- C7: on an initialized planner, `setRobotContactFrames` with a model in
which the configured left or right contact-frame name resolves to the
invalid frame index returns false and reverts the state to NotInitialized,
after which every `advance` call fails and leaves the state unchanged. -/
theorem C7_invalid_frame_reverts (s : PlannerState) (env : ModelEnv)
    (hs : s.state ≠ FSM.NotInitialized)
    (hload : env.loadOk = true)
    (hf : env.frameIndex s.parameters.leftContactFrameName = frameInvalidIndex ∨
          env.frameIndex s.parameters.rightContactFrameName = frameInvalidIndex) :
    (setRobotContactFrames env s).1 = false ∧
    (setRobotContactFrames env s).2.state = FSM.NotInitialized ∧
    (∀ genv, advance genv (setRobotContactFrames env s).2
        = (false, (setRobotContactFrames env s).2)) := by
  have hmain : (setRobotContactFrames env s).1 = false ∧
      (setRobotContactFrames env s).2.state = FSM.NotInitialized := by
    by_cases hL : env.frameIndex s.parameters.leftContactFrameName = frameInvalidIndex
    · simp [setRobotContactFrames, hs, hload, hL]
    · rcases hf with h | h
      · exact absurd h hL
      · simp [setRobotContactFrames, hs, hload, hL, h]
  exact ⟨hmain.1, hmain.2, fun genv => by simp [advance, hmain.2]⟩

/-- C7 witness: a concrete initialized planner and a model in which no frame
name resolves. -/
theorem C7_witness :
    (setRobotContactFrames invalidFrameModelEnv initializedState).1 = false ∧
    (setRobotContactFrames invalidFrameModelEnv initializedState).2.state
        = FSM.NotInitialized ∧
    advance sampleGenEnv (setRobotContactFrames invalidFrameModelEnv initializedState).2
      = (false, (setRobotContactFrames invalidFrameModelEnv initializedState).2) := by
  have h := C7_invalid_frame_reverts initializedState invalidFrameModelEnv
    (by decide) rfl (Or.inl rfl)
  exact ⟨h.1, h.2.1, h.2.2 sampleGenEnv⟩

/-- C8: after every successful `advance`, the CoM position, velocity and
acceleration sequences each have exactly as many samples as the DCM position
trajectory pulled from the generator, and the published DCM position
trajectory is that pulled sequence. -/
theorem C8_com_dcm_alignment (env : GenEnv) (s : PlannerState)
    (h : (advance env s).1 = true) :
    (advance env s).2.output.comTrajectory.position.length
        = (advance env s).2.output.dcmTrajectory.position.length ∧
    (advance env s).2.output.comTrajectory.velocity.length
        = (advance env s).2.output.dcmTrajectory.position.length ∧
    (advance env s).2.output.comTrajectory.acceleration.length
        = (advance env s).2.output.dcmTrajectory.position.length ∧
    (advance env s).2.output.dcmTrajectory.position = env.dcmPosition := by
  rw [advance_true_eq env s h]
  have hlen := comLoop_length
    ({ s with initTime := s.input.initTime } : PlannerState).comA
    ({ s with initTime := s.input.initTime } : PlannerState).comB
    ({ s with initTime := s.input.initTime } : PlannerState).parameters.dt
    (comX0 ({ s with initTime := s.input.initTime } : PlannerState).input)
    env.dcmPosition env.dcmVelocity
  simp [publishOutput, stackHeight_length, hlen.1, hlen.2.1, hlen.2.2]

/-- C8 witness: a successful `advance` on a concrete Running planner with a
two-sample DCM trajectory. -/
theorem C8_witness :
    (advance sampleGenEnv runningState).2.output.comTrajectory.position.length
        = (advance sampleGenEnv runningState).2.output.dcmTrajectory.position.length ∧
    (advance sampleGenEnv runningState).2.output.comTrajectory.velocity.length
        = (advance sampleGenEnv runningState).2.output.dcmTrajectory.position.length ∧
    (advance sampleGenEnv runningState).2.output.comTrajectory.acceleration.length
        = (advance sampleGenEnv runningState).2.output.dcmTrajectory.position.length ∧
    (advance sampleGenEnv runningState).2.output.dcmTrajectory.position
        = sampleGenEnv.dcmPosition :=
  C8_com_dcm_alignment sampleGenEnv runningState rfl

/-- C9: `getContactPhaseList` returns the empty contact phase list and
leaves the planner state untouched whenever the output is not valid, and
likewise when building either foot's contact list fails. -/
theorem C9_contact_phase_list_errors
    (cEnv : ContactListQuery → Option ContactList) (s : PlannerState) :
    (isOutputValid s = false →
       getContactPhaseList cEnv s = (emptyContactPhaseList, s)) ∧
    (cEnv (leftContactListQuery s) = none →
       getContactPhaseList cEnv s = (emptyContactPhaseList, s)) ∧
    (cEnv (rightContactListQuery s) = none →
       getContactPhaseList cEnv s = (emptyContactPhaseList, s)) := by
  refine ⟨fun h => by simp [getContactPhaseList, h], fun h => ?_, fun h => ?_⟩
  · by_cases hv : isOutputValid s = false
    · simp [getContactPhaseList, hv]
    · simp [getContactPhaseList, hv, h]
  · by_cases hv : isOutputValid s = false
    · simp [getContactPhaseList, hv]
    · cases hL : cEnv (leftContactListQuery s) with
      | none => simp [getContactPhaseList, hv, hL]
      | some l => simp [getContactPhaseList, hv, hL, h]

/-- C9 witness: the query on a not-yet-valid planner, and on a Running
planner whose contact-list builder fails. -/
theorem C9_witness :
    getContactPhaseList noneContactEnv notInitState = (emptyContactPhaseList, notInitState) ∧
    getContactPhaseList noneContactEnv runningState = (emptyContactPhaseList, runningState) :=
  ⟨(C9_contact_phase_list_errors noneContactEnv notInitState).1 rfl,
   (C9_contact_phase_list_errors noneContactEnv runningState).2.1 rfl⟩

/-- C10: an `advance` call that fails in the re-planning branch has already
overwritten the stored trajectory init time with the input's init time
(line 478 precedes every failure return), while the output is preserved;
consequently the contact-list queries a later `getContactPhaseList` builds
use the failed call's init time, not the one of the last successful plan. -/
theorem C10_failed_advance_updates_init_time (s : PlannerState) (env : GenEnv)
    (hs : s.state = FSM.Running)
    (hfail : env.addPointOk = false ∨ env.setDCMInitialStateOk = false ∨
             env.reGenerateOk = false) :
    (advance env s).1 = false ∧
    (advance env s).2.output = s.output ∧
    (advance env s).2.initTime = s.input.initTime ∧
    (leftContactListQuery (advance env s).2).initTime = s.input.initTime ∧
    (rightContactListQuery (advance env s).2).initTime = s.input.initTime := by
  rcases hfail with h | h | h <;>
    cases hA : env.addPointOk <;> cases hD : env.setDCMInitialStateOk <;>
      cases hR : env.reGenerateOk <;>
        simp_all [advance, replanBranch, leftContactListQuery, rightContactListQuery]

/-- C10 witness: the concrete Running planner stores init time 0 from its
last plan; the failed `advance` carries input init time 5, and the
contact-list queries afterwards use 5. -/
theorem C10_witness :
    (advance failAddEnv runningState).1 = false ∧
    (advance failAddEnv runningState).2.output = runningState.output ∧
    (advance failAddEnv runningState).2.initTime = 5 ∧
    (leftContactListQuery (advance failAddEnv runningState).2).initTime = 5 ∧
    (rightContactListQuery (advance failAddEnv runningState).2).initTime = 5 := by
  have h := C10_failed_advance_updates_init_time runningState failAddEnv rfl (Or.inl rfl)
  exact ⟨h.1, h.2.1, h.2.2.1, h.2.2.2.1, h.2.2.2.2⟩

end UnicyclePlanner
